import Mathlib

/-!
Shallow embedding of the rviz `FPSRollViewController`
(`src/rviz/default_plugin/view_controllers/fps_roll_view_controller.cpp`)
over the real numbers.

The controller consumes a few external collaborators.  Their behaviour is
embedded as follows:

* Ogre math primitives (`Ogre::Quaternion`, `Ogre::Vector3`,
  `Ogre::Camera::lookAt`) are modelled from the engine's documented
  semantics: Hamilton quaternion product, angle-axis construction,
  non-reprojected Euler extraction (`getRoll`/`getPitch` via `atan2`,
  `getYaw` via `asin`), vector rotation through the cross-product identity,
  and the fixed-yaw-axis look-at that orthonormalises a basis and converts
  it back to a quaternion (trace algorithm).
* `FloatProperty` (repository code not included in the sources) is modelled
  from the spec: values written through the property layer saturate at the
  configured min/max bounds; only the pitch property has bounds configured.
* `mapAngleTo0_2Pi` (repository code not included in the sources) is
  modelled from the spec: it wraps an angle into the interval [0, 2*pi).
* `FramePositionTrackingViewController::update` (repository code not
  included in the sources) is modelled from the spec: when a transform for
  the target frame is available it stores the new reference pose and moves
  the tracked scene node, otherwise it leaves the stored pose unchanged.

C++ `float`/`double` arithmetic is idealised as real arithmetic.
-/

noncomputable section

namespace FPSRoll

/-- Three-component vector, modelling `Ogre::Vector3`. -/
@[ext] structure Vec3 where
  x : ℝ
  y : ℝ
  z : ℝ

/-- Quaternion `(w, x, y, z)`, modelling `Ogre::Quaternion`. -/
@[ext] structure Quat where
  w : ℝ
  x : ℝ
  y : ℝ
  z : ℝ

def vadd (a b : Vec3) : Vec3 := ⟨a.x + b.x, a.y + b.y, a.z + b.z⟩

def vsub (a b : Vec3) : Vec3 := ⟨a.x - b.x, a.y - b.y, a.z - b.z⟩

def vneg (a : Vec3) : Vec3 := ⟨-a.x, -a.y, -a.z⟩

def vsmul (c : ℝ) (a : Vec3) : Vec3 := ⟨c * a.x, c * a.y, c * a.z⟩

/-- `Ogre::Vector3::dotProduct`. -/
def vdot (a b : Vec3) : ℝ := a.x * b.x + a.y * b.y + a.z * b.z

/-- `Ogre::Vector3::crossProduct`. -/
def vcross (a b : Vec3) : Vec3 :=
  ⟨a.y * b.z - a.z * b.y, a.z * b.x - a.x * b.z, a.x * b.y - a.y * b.x⟩

def unitX : Vec3 := ⟨1, 0, 0⟩

def unitY : Vec3 := ⟨0, 1, 0⟩

def unitZ : Vec3 := ⟨0, 0, 1⟩

/-- `Ogre::Vector3::NEGATIVE_UNIT_Z`. -/
def negUnitZ : Vec3 := ⟨0, 0, -1⟩

/-- `Ogre::Vector3::normalise`: divide by the Euclidean length when it
exceeds the engine's `1e-08` guard, otherwise leave the vector alone. -/
def normalise (v : Vec3) : Vec3 :=
  let l := Real.sqrt (v.x * v.x + v.y * v.y + v.z * v.z)
  if (1e-8 : ℝ) < l then ⟨v.x / l, v.y / l, v.z / l⟩ else v

/-- Two-argument arctangent with the C `atan2` quadrant conventions,
backing `Ogre::Math::ATan2`. -/
def atan2 (y x : ℝ) : ℝ :=
  if 0 < x then Real.arctan (y / x)
  else if x < 0 then
    (if 0 ≤ y then Real.arctan (y / x) + Real.pi else Real.arctan (y / x) - Real.pi)
  else
    (if 0 < y then Real.pi / 2 else if y < 0 then -(Real.pi / 2) else 0)

/-- Hamilton product, `Ogre::Quaternion::operator*`. -/
def quatMul (p q : Quat) : Quat :=
  ⟨p.w * q.w - p.x * q.x - p.y * q.y - p.z * q.z,
   p.w * q.x + p.x * q.w + p.y * q.z - p.z * q.y,
   p.w * q.y + p.y * q.w + p.z * q.x - p.x * q.z,
   p.w * q.z + p.z * q.w + p.x * q.y - p.y * q.x⟩

/-- `Ogre::Quaternion::Quaternion()`: the identity quaternion. -/
def quatIdentity : Quat := ⟨1, 0, 0, 0⟩

/-- `Ogre::Quaternion::Inverse`: conjugate divided by the squared norm,
zero quaternion when the norm is not positive. -/
def quatInverse (q : Quat) : Quat :=
  let fNorm := q.w * q.w + q.x * q.x + q.y * q.y + q.z * q.z
  if 0 < fNorm then
    ⟨q.w * (1 / fNorm), -q.x * (1 / fNorm), -q.y * (1 / fNorm), -q.z * (1 / fNorm)⟩
  else ⟨0, 0, 0, 0⟩

/-- `Ogre::Quaternion::FromAngleAxis` (axis assumed unit length). -/
def fromAngleAxis (angle : ℝ) (axis : Vec3) : Quat :=
  ⟨Real.cos (0.5 * angle), Real.sin (0.5 * angle) * axis.x,
   Real.sin (0.5 * angle) * axis.y, Real.sin (0.5 * angle) * axis.z⟩

/-- `Ogre::Quaternion::operator* (Vector3)`: rotate a vector,
via the engine's cross-product formula. -/
def quatRotate (q : Quat) (v : Vec3) : Vec3 :=
  let qvec : Vec3 := ⟨q.x, q.y, q.z⟩
  let uv := vcross qvec v
  let uuv := vcross qvec uv
  vadd v (vadd (vsmul (2 * q.w) uv) (vsmul 2 uuv))

/-- `Ogre::Quaternion::getRoll(false)`: rotation angle about the local Z
axis, without axis reprojection. -/
def getRollNR (q : Quat) : ℝ :=
  atan2 (2 * (q.x * q.y + q.w * q.z)) (q.w * q.w + q.x * q.x - q.y * q.y - q.z * q.z)

/-- `Ogre::Quaternion::getPitch(false)`: rotation angle about the local X
axis, without axis reprojection. -/
def getPitchNR (q : Quat) : ℝ :=
  atan2 (2 * (q.y * q.z + q.w * q.x)) (q.w * q.w - q.x * q.x - q.y * q.y + q.z * q.z)

/-- `Ogre::Quaternion::getYaw(false)`: rotation angle about the local Y
axis, without axis reprojection. -/
def getYawNR (q : Quat) : ℝ :=
  Real.arcsin (-2 * (q.x * q.z - q.w * q.y))

/-- Row-major 3x3 matrix, modelling `Ogre::Matrix3`. -/
structure Mat3 where
  m00 : ℝ
  m01 : ℝ
  m02 : ℝ
  m10 : ℝ
  m11 : ℝ
  m12 : ℝ
  m20 : ℝ
  m21 : ℝ
  m22 : ℝ

/-- `Ogre::Matrix3::FromAxes`: the three axes become the matrix columns. -/
def fromAxes (xA yA zA : Vec3) : Mat3 :=
  ⟨xA.x, yA.x, zA.x,
   xA.y, yA.y, zA.y,
   xA.z, yA.z, zA.z⟩

/-- `Ogre::Quaternion::FromRotationMatrix`: Shoemake's trace algorithm. -/
def fromRotationMatrix (m : Mat3) : Quat :=
  let fTrace := m.m00 + m.m11 + m.m22
  if 0 < fTrace then
    let fRoot := Real.sqrt (fTrace + 1)
    ⟨0.5 * fRoot,
     (m.m21 - m.m12) * (0.5 / fRoot),
     (m.m02 - m.m20) * (0.5 / fRoot),
     (m.m10 - m.m01) * (0.5 / fRoot)⟩
  else if m.m11 > m.m00 then
    if m.m22 > m.m11 then
      let fRoot := Real.sqrt (m.m22 - m.m00 - m.m11 + 1)
      ⟨(m.m10 - m.m01) * (0.5 / fRoot),
       (m.m02 + m.m20) * (0.5 / fRoot),
       (m.m12 + m.m21) * (0.5 / fRoot),
       0.5 * fRoot⟩
    else
      let fRoot := Real.sqrt (m.m11 - m.m22 - m.m00 + 1)
      ⟨(m.m02 - m.m20) * (0.5 / fRoot),
       (m.m01 + m.m10) * (0.5 / fRoot),
       0.5 * fRoot,
       (m.m21 + m.m12) * (0.5 / fRoot)⟩
  else if m.m22 > m.m00 then
    let fRoot := Real.sqrt (m.m22 - m.m00 - m.m11 + 1)
    ⟨(m.m10 - m.m01) * (0.5 / fRoot),
     (m.m02 + m.m20) * (0.5 / fRoot),
     (m.m12 + m.m21) * (0.5 / fRoot),
     0.5 * fRoot⟩
  else
    let fRoot := Real.sqrt (m.m00 - m.m11 - m.m22 + 1)
    ⟨(m.m21 - m.m12) * (0.5 / fRoot),
     0.5 * fRoot,
     (m.m10 + m.m01) * (0.5 / fRoot),
     (m.m20 + m.m02) * (0.5 / fRoot)⟩

/-- `Ogre::Camera::lookAt` -> `setDirection(target - position)` with the
camera's default fixed yaw axis `+Y`: build an orthonormal basis whose
local `-Z` points at the target and convert it to a quaternion.  A zero
direction vector leaves the current orientation unchanged. -/
def cameraLookAtOrientation (camPos target : Vec3) (current : Quat) : Quat :=
  let vec := vsub target camPos
  if vec.x = 0 ∧ vec.y = 0 ∧ vec.z = 0 then current
  else
    let zAdjust := normalise (vneg vec)
    let xVec := normalise (vcross unitY zAdjust)
    let yVec := normalise (vcross zAdjust xVec)
    fromRotationMatrix (fromAxes xVec yVec zAdjust)

/-- `ROBOT_TO_CAMERA_ROTATION` (fps_roll_view_controller.cpp, lines 53-55):
rotation of -pi/2 about `UNIT_Y` composed with rotation of -pi/2 about
`UNIT_Z`. -/
def ROBOT_TO_CAMERA_BASIS : Quat :=
  quatMul (fromAngleAxis (-(Real.pi / 2)) unitY) (fromAngleAxis (-(Real.pi / 2)) unitZ)

/-- `PITCH_LIMIT_LOW` (line 57). -/
def PITCH_LIMIT_LOW : ℝ := -(Real.pi / 2) + 0.001

/-- `PITCH_LIMIT_HIGH` (line 58). -/
def PITCH_LIMIT_HIGH : ℝ := Real.pi / 2 - 0.001

/-- Modelled from the spec: `FloatProperty::setValue` saturates an
out-of-range write at the configured bound ("out-of-range sets are
silently saturated"); these are the bounds configured for the pitch
property in the constructor (lines 64-66). -/
def clampPitch (v : ℝ) : ℝ :=
  if PITCH_LIMIT_HIGH < v then PITCH_LIMIT_HIGH
  else if v < PITCH_LIMIT_LOW then PITCH_LIMIT_LOW
  else v

/-- The pitch property's stored value: always within the configured
bounds, because every write goes through the clamping property layer. -/
def PitchProp := { v : ℝ // PITCH_LIMIT_LOW ≤ v ∧ v ≤ PITCH_LIMIT_HIGH }

/-- Modelled from the spec: `pitch_property_->setFloat` writes through the
clamping property layer. -/
def setPitchFloat (v : ℝ) : PitchProp :=
  ⟨clampPitch v, by
    have hpi : (3.141592 : ℝ) < Real.pi := Real.pi_gt_d6
    unfold clampPitch PITCH_LIMIT_LOW PITCH_LIMIT_HIGH
    split_ifs with h1 h2
    · constructor <;> linarith
    · constructor <;> linarith
    · simp only [not_lt] at h1 h2
      constructor <;> linarith⟩

/-- Modelled from the spec: `mapAngleTo0_2Pi` (rviz/geometry, repository
code not included in the sources) wraps an angle into [0, 2*pi). -/
def mapAngleTo0_2Pi (a : ℝ) : ℝ :=
  a - 2 * Real.pi * (Int.floor (a / (2 * Real.pi)) : ℝ)

/-- Mouse-cursor shapes used by the controller (`Rotate3D`, `MoveXY`,
`MoveZ`). -/
inductive CursorShape where
  | rotate3D : CursorShape
  | moveXY : CursorShape
  | moveZ : CursorShape

/-- The two status-hint strings the controller installs via `setStatus`
(the exact text is not behaviourally load-bearing): `shiftOptions` is the
hint shown while shift is held, `normalOptions` otherwise. -/
inductive StatusHint where
  | shiftOptions : StatusHint
  | normalOptions : StatusHint

/-- `ViewportMouseEvent`, restricted to what `handleMouseEvent` reads:
whether `event.type == QEvent::MouseMove`, the integer pointer
coordinates, the button/modifier predicates and the wheel delta. -/
structure ViewportMouseEvent where
  isMouseMove : Bool
  evx : ℤ
  evy : ℤ
  last_x : ℤ
  last_y : ℤ
  left : Bool
  middle : Bool
  right : Bool
  shift : Bool
  wheel_delta : ℤ

/-- The controller state: the four editable properties, the externally
owned camera pose, the stored reference-frame pose, the tracked scene
node pose, and the user-visible status/cursor hints. -/
structure ControllerState where
  yaw_prop : ℝ
  pitch_prop : PitchProp
  roll_prop : ℝ
  position_prop : Vec3
  cam_orientation : Quat
  cam_position : Vec3
  reference_position : Vec3
  reference_orientation : Quat
  node_position : Vec3
  node_orientation : Quat
  status_hint : StatusHint
  cursor_shape : CursorShape

/-- `FPSRollViewController::getOrientation` (lines 253-264): the live
yaw/pitch/roll properties are never read; the result is the fixed
composition `roll * pitch * yaw` with `pitch` = rotation by the literal
angle -1.57 about `UNIT_Y`, `roll` = rotation by the literal angle 1.57
about `UNIT_X`, and `yaw` left as the default identity quaternion. -/
def getOrientation (s : ControllerState) : Quat :=
  let yawQ := quatIdentity
  let pitchQ := fromAngleAxis (-1.57) unitY
  let rollQ := fromAngleAxis 1.57 unitX
  quatMul (quatMul rollQ pitchQ) yawQ

/-- `FPSRollViewController::move` (lines 266-270): the translation is
rotated from camera-local axes into world space and accumulated into the
position property. -/
def move (s : ControllerState) (mx my mz : ℝ) : ControllerState :=
  { s with position_prop := vadd s.position_prop (quatRotate (getOrientation s) ⟨mx, my, mz⟩) }

/-- `FPSRollViewController::yaw` (lines 239-242): add, then re-wrap into
[0, 2*pi). -/
def yaw (s : ControllerState) (angle : ℝ) : ControllerState :=
  { s with yaw_prop := mapAngleTo0_2Pi (s.yaw_prop + angle) }

/-- `FPSRollViewController::pitch` (lines 244-247): add through the
property's clamped-add. -/
def pitch (s : ControllerState) (angle : ℝ) : ControllerState :=
  { s with pitch_prop := setPitchFloat (s.pitch_prop.val + angle) }

/-- `FPSRollViewController::roll` (lines 249-251): a no-op. -/
def roll (s : ControllerState) (angle : ℝ) : ControllerState := s

/-- `FPSRollViewController::updateCamera` (lines 233-237). -/
def updateCamera (s : ControllerState) : ControllerState :=
  { s with cam_orientation := getOrientation s, cam_position := s.position_prop }

/-- `FPSRollViewController::setPropertiesFromCamera` (lines 157-191),
applied to a camera pose `(camO, camP)`. -/
def setPropertiesFromCamera (s : ControllerState) (camO : Quat) (camP : Vec3) :
    ControllerState :=
  let quat := quatMul camO (quatInverse ROBOT_TO_CAMERA_BASIS)
  let yaw0 := getRollNR quat
  let pitch0 := getYawNR quat
  let direction := quatRotate quat negUnitZ
  let yp :=
    if vdot direction negUnitZ < 0 then
      let pitch1 :=
        if Real.pi / 2 < pitch0 then pitch0 - Real.pi
        else if pitch0 < -(Real.pi / 2) then pitch0 + Real.pi
        else pitch0
      let yaw1 := -yaw0
      let yaw2 := if vdot direction unitX < 0 then yaw1 - Real.pi else yaw1 + Real.pi
      (yaw2, pitch1)
    else (yaw0, pitch0)
  { s with pitch_prop := setPitchFloat yp.2,
           yaw_prop := mapAngleTo0_2Pi yp.1,
           position_prop := camP }

/-- `setPropertiesFromCamera` applied to the controller's own camera. -/
def setPropertiesFromCameraSelf (s : ControllerState) : ControllerState :=
  setPropertiesFromCamera s s.cam_orientation s.cam_position

/-- `FPSRollViewController::reset` (lines 84-97), including the
documented second reverse+forward pass ("Hersh says" comment). -/
def reset (s : ControllerState) : ControllerState :=
  let s1 := { s with cam_position := ⟨-10, 0, 1⟩ }
  let s2 := { s1 with cam_orientation :=
    cameraLookAtOrientation s1.cam_position ⟨0, 0, 0⟩ s1.cam_orientation }
  let s3 := setPropertiesFromCameraSelf s2
  let s4 := updateCamera s3
  let s5 := { s4 with cam_orientation :=
    cameraLookAtOrientation s4.cam_position ⟨0, 0, 0⟩ s4.cam_orientation }
  setPropertiesFromCameraSelf s5

/-- `FPSRollViewController::mimic` (lines 193-197): reverse-extract the
properties from the source view's camera pose. -/
def mimic (s : ControllerState) (sourceCamO : Quat) (sourceCamP : Vec3) : ControllerState :=
  setPropertiesFromCamera s sourceCamO sourceCamP

/-- `FPSRollViewController::lookAt` (lines 222-226). -/
def lookAtPoint (s : ControllerState) (point : Vec3) : ControllerState :=
  let s1 := { s with cam_orientation :=
    cameraLookAtOrientation s.cam_position point s.cam_orientation }
  setPropertiesFromCameraSelf s1

/-- Modelled from the spec: the base
`FramePositionTrackingViewController::update`.  The transform lookup
result for the target frame is passed in as `tf` (`none` = `getTransform`
returned false).  On success the new reference pose is stored and the
tracked scene node is moved to it; on failure everything is left
unchanged. -/
def framePositionTrackingUpdate (s : ControllerState) (tf : Option (Vec3 × Quat)) :
    ControllerState :=
  match tf with
  | some pq => { s with reference_position := pq.1,
                        reference_orientation := pq.2,
                        node_position := pq.1 }
  | none => s

/-- `FPSRollViewController::update` (lines 199-220).  `tf` is the result
of the (repeated) `getTransform` lookup for the target frame at the
latest time; the lookup failure is reported only as this boolean-like
option and the function is total: nothing is retried, surfaced or fatal. -/
def update (s : ControllerState) (dt ros_dt : ℝ) (tf : Option (Vec3 × Quat)) :
    ControllerState :=
  let s1 := framePositionTrackingUpdate s tf
  let s2 := { s1 with node_orientation := s1.reference_orientation }
  let s3 :=
    match tf with
    | some pq =>
        { s2 with roll_prop := getRollNR pq.2,
                  yaw_prop := getYawNR pq.2,
                  pitch_prop := setPitchFloat (getPitchNR pq.2) }
    | none => s2
  updateCamera s3

/-- `FPSRollViewController::onTargetFrameChanged` (lines 228-231). -/
def onTargetFrameChanged (s : ControllerState) (old_reference_position : Vec3) :
    ControllerState :=
  { s with position_prop := vadd s.position_prop
                              (vsub old_reference_position s.reference_position) }

/-- `FPSRollViewController::handleMouseEvent` (lines 99-155).  Returns
the new state together with the `moved` flag, i.e. whether
`context_->queueRender()` was called. -/
def handleMouseEvent (s : ControllerState) (e : ViewportMouseEvent) :
    ControllerState × Bool :=
  let s0 := { s with status_hint :=
    if e.shift then StatusHint.shiftOptions else StatusHint.normalOptions }
  let diff_x : ℤ := if e.isMouseMove then e.evx - e.last_x else 0
  let diff_y : ℤ := if e.isMouseMove then e.evy - e.last_y else 0
  let moved0 := e.isMouseMove
  let s1 :=
    if e.left && !e.shift then
      pitch (yaw { s0 with cursor_shape := CursorShape.rotate3D }
        (-(diff_x : ℝ) * 0.005)) ((diff_y : ℝ) * 0.005)
    else if e.middle || (e.shift && e.left) then
      move { s0 with cursor_shape := CursorShape.moveXY }
        ((diff_x : ℝ) * 0.01) (-(diff_y : ℝ) * 0.01) 0
    else if e.right then
      move { s0 with cursor_shape := CursorShape.moveZ } 0 0 ((diff_y : ℝ) * 0.1)
    else
      { s0 with cursor_shape :=
        if e.shift then CursorShape.moveXY else CursorShape.rotate3D }
  if e.wheel_delta ≠ 0 then
    (move s1 0 0 (-(e.wheel_delta : ℝ) * 0.01), true)
  else (s1, moved0)

/-! Spec-side definitions, written from the claims' wording, for the
refinement comparisons. -/

/-- The axis the spec calls the "world-forward axis" in the
reverse-extraction branch test: the canonical forward direction of the
de-based quaternion frame (the frame obtained after removing the
robot-to-camera basis), which the code expresses as `NEGATIVE_UNIT_Z`. -/
def worldForwardAxis : Vec3 := ⟨0, 0, -1⟩

/-- The axis the spec calls the "world lateral axis" in the
reverse-extraction branch test, expressed in the code as `UNIT_X`. -/
def worldLateralAxis : Vec3 := ⟨1, 0, 0⟩

/-- Claim C1's description of the reverse extraction: remove the fixed
basis rotation by right-multiplying by its inverse, read yaw from the
native roll angle and pitch from the native yaw angle, and exactly when
the forward direction's projection onto the world-forward axis is
negative fold the pitch by -pi/+pi around the +-pi/2 thresholds, negate
the yaw and add or subtract pi according to the sign of the projection
onto the world lateral axis; finally wrap yaw into [0, 2*pi) and write
pitch, wrapped yaw and the raw camera position into the properties. -/
def setPropertiesFromCameraSpec (s : ControllerState) (camO : Quat) (camP : Vec3) :
    ControllerState :=
  let q := quatMul camO (quatInverse ROBOT_TO_CAMERA_BASIS)
  let rawYaw := getRollNR q
  let rawPitch := getYawNR q
  let dir := quatRotate q negUnitZ
  let backward := vdot dir worldForwardAxis < 0
  let pitchOut :=
    if backward then
      if Real.pi / 2 < rawPitch then rawPitch - Real.pi
      else if rawPitch < -(Real.pi / 2) then rawPitch + Real.pi
      else rawPitch
    else rawPitch
  let yawOut :=
    if backward then
      if vdot dir worldLateralAxis < 0 then -rawYaw - Real.pi else -rawYaw + Real.pi
    else rawYaw
  { s with pitch_prop := setPitchFloat pitchOut,
           yaw_prop := mapAngleTo0_2Pi yawOut,
           position_prop := camP }

/-- Claim C6's four disjoint mouse actions. -/
inductive MouseAction where
  | rotate : MouseAction
  | panXY : MouseAction
  | dollyZ : MouseAction
  | cursorOnly : MouseAction

/-- Claim C6's precedence: primary button without shift rotates;
otherwise secondary button, or primary with shift, pans; otherwise the
tertiary button moves along local Z; otherwise only the cursor hint is
updated. -/
def classifyMouseButtons (e : ViewportMouseEvent) : MouseAction :=
  if e.left && !e.shift then MouseAction.rotate
  else if e.middle || (e.shift && e.left) then MouseAction.panXY
  else if e.right then MouseAction.dollyZ
  else MouseAction.cursorOnly

/-- Claim C6's description of `handleMouseEvent`: exactly one of the four
classified actions fires (with motion deltas zero for non-move events),
and independently a nonzero wheel delta additionally applies
`move(0, 0, -wheel*0.01)` in the same event. -/
def handleMouseEventSpec (s : ControllerState) (e : ViewportMouseEvent) :
    ControllerState × Bool :=
  let s0 := { s with status_hint :=
    if e.shift then StatusHint.shiftOptions else StatusHint.normalOptions }
  let diff_x : ℤ := if e.isMouseMove then e.evx - e.last_x else 0
  let diff_y : ℤ := if e.isMouseMove then e.evy - e.last_y else 0
  let s1 :=
    match classifyMouseButtons e with
    | MouseAction.rotate =>
        pitch (yaw { s0 with cursor_shape := CursorShape.rotate3D }
          (-(diff_x : ℝ) * 0.005)) ((diff_y : ℝ) * 0.005)
    | MouseAction.panXY =>
        move { s0 with cursor_shape := CursorShape.moveXY }
          ((diff_x : ℝ) * 0.01) (-(diff_y : ℝ) * 0.01) 0
    | MouseAction.dollyZ =>
        move { s0 with cursor_shape := CursorShape.moveZ } 0 0 ((diff_y : ℝ) * 0.1)
    | MouseAction.cursorOnly =>
        { s0 with cursor_shape :=
          if e.shift then CursorShape.moveXY else CursorShape.rotate3D }
  if e.wheel_delta ≠ 0 then
    (move s1 0 0 (-(e.wheel_delta : ℝ) * 0.01), true)
  else (s1, e.isMouseMove)

/-- Claim C2's exact "+-90 degrees" composition, read in the code's
operand order: rotation by pi/2 about the lateral axis `UNIT_X` composed
with rotation by -pi/2 about the up axis `UNIT_Y`. -/
def exactNinetyXY : Quat :=
  quatMul (fromAngleAxis (Real.pi / 2) unitX) (fromAngleAxis (-(Real.pi / 2)) unitY)

/-- Claim C2's exact "+-90 degrees" composition, opposite operand order. -/
def exactNinetyYX : Quat :=
  quatMul (fromAngleAxis (-(Real.pi / 2)) unitY) (fromAngleAxis (Real.pi / 2) unitX)

/-- The state set up by the constructor (lines 60-71): yaw 0, pitch 0,
roll 0, position (-10, 0, 1); the remaining (externally owned) poses are
taken as identity/origin and the hints as their non-shift values. -/
def initialState : ControllerState :=
  { yaw_prop := 0,
    pitch_prop := ⟨0, by
      have hpi : (3.141592 : ℝ) < Real.pi := Real.pi_gt_d6
      unfold PITCH_LIMIT_LOW PITCH_LIMIT_HIGH
      constructor <;> linarith⟩,
    roll_prop := 0,
    position_prop := ⟨-10, 0, 1⟩,
    cam_orientation := quatIdentity,
    cam_position := ⟨0, 0, 0⟩,
    reference_position := ⟨0, 0, 0⟩,
    reference_orientation := quatIdentity,
    node_position := ⟨0, 0, 0⟩,
    node_orientation := quatIdentity,
    status_hint := StatusHint.normalOptions,
    cursor_shape := CursorShape.rotate3D }

/-- A state whose yaw property holds 6.0 rad (in range, since
6 < 2*pi). -/
def yawSixState : ControllerState := { initialState with yaw_prop := 6 }

/-- A state whose pitch property holds 1.5 rad (in range, since
1.5 < pi/2 - 0.001). -/
def pitchOnePointFiveState : ControllerState :=
  { initialState with pitch_prop := ⟨1.5, by
      have hpi : (3.141592 : ℝ) < Real.pi := Real.pi_gt_d6
      unfold PITCH_LIMIT_LOW PITCH_LIMIT_HIGH
      constructor <;> linarith⟩ }

/-- A button-press event: not a pointer move, left button held, no
modifiers, no wheel motion. -/
def leftPressEvent : ViewportMouseEvent :=
  { isMouseMove := false, evx := 3, evy := 4, last_x := 9, last_y := 2,
    left := true, middle := false, right := false, shift := false,
    wheel_delta := 0 }

/-- A pointer-move event whose coordinates did not actually change, with
the middle button held and no wheel motion: its button action reduces to
`move(0, 0, 0)`. -/
def zeroDeltaMoveEvent : ViewportMouseEvent :=
  { isMouseMove := true, evx := 5, evy := 7, last_x := 5, last_y := 7,
    left := false, middle := true, right := false, shift := false,
    wheel_delta := 0 }

/-- The reference orientation used to refute the universal yaw-wrapping
claim: its native yaw decomposition is `asin(-0.96) < 0`. -/
def negativeYawOrientation : Quat := ⟨0.8, 0, -0.6, 0⟩

/-! Helper lemmas. -/

lemma mapAngleTo0_2Pi_eq_fract (a : ℝ) :
    mapAngleTo0_2Pi a = 2 * Real.pi * Int.fract (a / (2 * Real.pi)) := by
  have h2pi : (2 : ℝ) * Real.pi ≠ 0 := ne_of_gt Real.two_pi_pos
  unfold mapAngleTo0_2Pi
  rw [Int.fract, mul_sub, mul_div_cancel₀ a h2pi]

lemma mapAngleTo0_2Pi_mem (a : ℝ) :
    0 ≤ mapAngleTo0_2Pi a ∧ mapAngleTo0_2Pi a < 2 * Real.pi := by
  rw [mapAngleTo0_2Pi_eq_fract]
  constructor
  · exact mul_nonneg (le_of_lt Real.two_pi_pos) (Int.fract_nonneg _)
  · calc 2 * Real.pi * Int.fract (a / (2 * Real.pi))
        < 2 * Real.pi * 1 :=
          mul_lt_mul_of_pos_left (Int.fract_lt_one _) Real.two_pi_pos
      _ = 2 * Real.pi := mul_one _

lemma mapAngleTo0_2Pi_eq_self {a : ℝ} (h0 : 0 ≤ a) (h1 : a < 2 * Real.pi) :
    mapAngleTo0_2Pi a = a := by
  have hfloor : Int.floor (a / (2 * Real.pi)) = 0 := by
    rw [Int.floor_eq_iff]
    constructor
    · simpa using div_nonneg h0 (le_of_lt Real.two_pi_pos)
    · simpa using (div_lt_one Real.two_pi_pos).mpr h1
  unfold mapAngleTo0_2Pi
  rw [hfloor]
  simp

lemma clampPitch_eq_self {v : ℝ} (h0 : PITCH_LIMIT_LOW ≤ v) (h1 : v ≤ PITCH_LIMIT_HIGH) :
    clampPitch v = v := by
  unfold clampPitch
  rw [if_neg (not_lt.mpr h1), if_neg (not_lt.mpr h0)]

lemma setPitchFloat_val (p : PitchProp) : setPitchFloat p.val = p := by
  apply Subtype.ext
  exact clampPitch_eq_self p.property.1 p.property.2

lemma quatRotate_zeroVec (q : Quat) : quatRotate q ⟨0, 0, 0⟩ = ⟨0, 0, 0⟩ := by
  unfold quatRotate vcross vadd vsmul
  ext <;> simp

lemma vadd_zeroVec (v : Vec3) : vadd v ⟨0, 0, 0⟩ = v := by
  unfold vadd
  ext <;> simp

lemma quatMul_identity (q : Quat) : quatMul q quatIdentity = q := by
  unfold quatMul quatIdentity
  ext <;> dsimp <;> ring

lemma getOrientation_eval (s : ControllerState) :
    getOrientation s =
      ⟨Real.cos 0.785 * Real.cos 0.785,
       Real.sin 0.785 * Real.cos 0.785,
       -(Real.cos 0.785 * Real.sin 0.785),
       -(Real.sin 0.785 * Real.sin 0.785)⟩ := by
  unfold getOrientation quatIdentity fromAngleAxis quatMul unitX unitY
  norm_num [Real.cos_neg, Real.sin_neg]

lemma cos_pi_div_four_sq : Real.cos (Real.pi / 4) * Real.cos (Real.pi / 4) = 1 / 2 := by
  rw [Real.cos_pi_div_four, div_mul_div_comm, Real.mul_self_sqrt (by norm_num)]
  norm_num

lemma exactNinetyXY_w : exactNinetyXY.w = 1 / 2 := by
  unfold exactNinetyXY fromAngleAxis quatMul unitX unitY
  have h1 : (0.5 : ℝ) * (Real.pi / 2) = Real.pi / 4 := by ring
  have h2 : (0.5 : ℝ) * (-(Real.pi / 2)) = -(Real.pi / 4) := by ring
  dsimp
  rw [h1, h2, Real.cos_neg, Real.sin_neg]
  have := cos_pi_div_four_sq
  nlinarith [this]

lemma exactNinetyYX_w : exactNinetyYX.w = 1 / 2 := by
  unfold exactNinetyYX fromAngleAxis quatMul unitX unitY
  have h1 : (0.5 : ℝ) * (Real.pi / 2) = Real.pi / 4 := by ring
  have h2 : (0.5 : ℝ) * (-(Real.pi / 2)) = -(Real.pi / 4) := by ring
  dsimp
  rw [h1, h2, Real.cos_neg, Real.sin_neg]
  have := cos_pi_div_four_sq
  nlinarith [this]

lemma cos_785_sq_gt_half : 1 / 2 < Real.cos 0.785 * Real.cos 0.785 := by
  have hpi : (3.141592 : ℝ) < Real.pi := Real.pi_gt_d6
  have hlt : (0.785 : ℝ) < Real.pi / 4 := by linarith
  have hmem1 : (0.785 : ℝ) ∈ Set.Icc (0 : ℝ) Real.pi :=
    Set.mem_Icc.mpr ⟨by norm_num, by linarith⟩
  have hmem2 : Real.pi / 4 ∈ Set.Icc (0 : ℝ) Real.pi :=
    Set.mem_Icc.mpr ⟨by linarith, by linarith⟩
  have hcos : Real.cos (Real.pi / 4) < Real.cos 0.785 :=
    Real.strictAntiOn_cos hmem1 hmem2 hlt
  have hpos : (0 : ℝ) < Real.cos (Real.pi / 4) := by
    rw [Real.cos_pi_div_four]
    positivity
  have := mul_lt_mul'' hcos hcos (le_of_lt hpos) (le_of_lt hpos)
  rw [cos_pi_div_four_sq] at this
  exact this

lemma sqrt101_pos : (0 : ℝ) < Real.sqrt 101 := Real.sqrt_pos.mpr (by norm_num)

lemma sqrt101_sq : Real.sqrt 101 * Real.sqrt 101 = 101 := Real.mul_self_sqrt (by norm_num)

lemma one_le_sqrt101 : (1 : ℝ) ≤ Real.sqrt 101 := by
  rw [show (1 : ℝ) = Real.sqrt 1 from Real.sqrt_one.symm]
  exact Real.sqrt_le_sqrt (by norm_num)

lemma normalise_reset_dir :
    normalise ⟨-10, 0, 1⟩ = ⟨-10 / Real.sqrt 101, 0, 1 / Real.sqrt 101⟩ := by
  unfold normalise
  dsimp only
  rw [show ((-10 : ℝ) * -10 + 0 * 0 + 1 * 1) = 101 by norm_num]
  rw [if_pos (lt_of_lt_of_le (by norm_num) one_le_sqrt101)]
  ext <;> dsimp <;> norm_num

lemma cross_unitY_zAdjust :
    vcross unitY ⟨-10 / Real.sqrt 101, 0, 1 / Real.sqrt 101⟩ =
      ⟨1 / Real.sqrt 101, 0, 10 / Real.sqrt 101⟩ := by
  unfold vcross unitY
  ext <;> dsimp <;> ring

lemma normalise_xvec :
    normalise ⟨1 / Real.sqrt 101, 0, 10 / Real.sqrt 101⟩ =
      ⟨1 / Real.sqrt 101, 0, 10 / Real.sqrt 101⟩ := by
  have hne := ne_of_gt sqrt101_pos
  unfold normalise
  dsimp only
  rw [show (1 / Real.sqrt 101 * (1 / Real.sqrt 101) + 0 * 0 +
      10 / Real.sqrt 101 * (10 / Real.sqrt 101)) = 1 by
    field_simp
    norm_num]
  rw [Real.sqrt_one, if_pos (by norm_num : (1e-8 : ℝ) < 1)]
  ext <;> dsimp <;> norm_num

lemma cross_zAdjust_xvec :
    vcross ⟨-10 / Real.sqrt 101, 0, 1 / Real.sqrt 101⟩
      ⟨1 / Real.sqrt 101, 0, 10 / Real.sqrt 101⟩ = ⟨0, 1, 0⟩ := by
  have hne := ne_of_gt sqrt101_pos
  unfold vcross
  ext <;> dsimp
  · ring
  · field_simp
    norm_num
  · ring

lemma normalise_unitY : normalise ⟨0, 1, 0⟩ = ⟨0, 1, 0⟩ := by
  unfold normalise
  dsimp only
  rw [show ((0 : ℝ) * 0 + 1 * 1 + 0 * 0) = 1 by norm_num]
  rw [Real.sqrt_one, if_pos (by norm_num : (1e-8 : ℝ) < 1)]
  ext <;> dsimp <;> norm_num

lemma fromRot_reset :
    fromRotationMatrix (fromAxes ⟨1 / Real.sqrt 101, 0, 10 / Real.sqrt 101⟩ ⟨0, 1, 0⟩
      ⟨-10 / Real.sqrt 101, 0, 1 / Real.sqrt 101⟩) =
    ⟨0.5 * Real.sqrt (2 + 2 / Real.sqrt 101), 0,
     -10 / (Real.sqrt 101 * Real.sqrt (2 + 2 / Real.sqrt 101)), 0⟩ := by
  have hL := sqrt101_pos
  have hTpos : (0 : ℝ) < 1 / Real.sqrt 101 + 1 + 1 / Real.sqrt 101 := by positivity
  have hRpos : (0 : ℝ) < Real.sqrt (2 + 2 / Real.sqrt 101) :=
    Real.sqrt_pos.mpr (by positivity)
  unfold fromRotationMatrix fromAxes
  dsimp only
  rw [if_pos hTpos]
  rw [show (1 / Real.sqrt 101 + 1 + 1 / Real.sqrt 101 + 1 : ℝ) =
      2 + 2 / Real.sqrt 101 by ring]
  set t := Real.sqrt 101 with htdef
  set u := Real.sqrt (2 + 2 / t) with hudef
  have ht0 : t ≠ 0 := ne_of_gt hL
  have hu0 : u ≠ 0 := ne_of_gt hRpos
  ext <;> dsimp
  all_goals ring

lemma lookAt_reset_eval (cur : Quat) :
    cameraLookAtOrientation ⟨-10, 0, 1⟩ ⟨0, 0, 0⟩ cur =
      ⟨0.5 * Real.sqrt (2 + 2 / Real.sqrt 101), 0,
       -10 / (Real.sqrt 101 * Real.sqrt (2 + 2 / Real.sqrt 101)), 0⟩ := by
  have hsub : vsub ⟨0, 0, 0⟩ ⟨-10, 0, 1⟩ = (⟨10, 0, -1⟩ : Vec3) := by
    unfold vsub
    ext <;> dsimp <;> norm_num
  have hneg : vneg ⟨10, 0, -1⟩ = (⟨-10, 0, 1⟩ : Vec3) := by
    unfold vneg
    ext <;> dsimp <;> norm_num
  simp only [cameraLookAtOrientation, hsub, hneg, normalise_reset_dir, cross_unitY_zAdjust,
    normalise_xvec, cross_zAdjust_xvec, normalise_unitY, fromRot_reset]
  rw [if_neg (by norm_num)]

lemma reset_cam_position (s : ControllerState) : (reset s).cam_position = ⟨-10, 0, 1⟩ := rfl

lemma reset_cam_orientation (s : ControllerState) :
    (reset s).cam_orientation =
      ⟨0.5 * Real.sqrt (2 + 2 / Real.sqrt 101), 0,
       -10 / (Real.sqrt 101 * Real.sqrt (2 + 2 / Real.sqrt 101)), 0⟩ := by
  show cameraLookAtOrientation ⟨-10, 0, 1⟩ ⟨0, 0, 0⟩ _ = _
  exact lookAt_reset_eval _

lemma quatRotate_reset_dir :
    quatRotate ⟨0.5 * Real.sqrt (2 + 2 / Real.sqrt 101), 0,
      -10 / (Real.sqrt 101 * Real.sqrt (2 + 2 / Real.sqrt 101)), 0⟩ negUnitZ =
    ⟨10 / Real.sqrt 101, 0, -(1 / Real.sqrt 101)⟩ := by
  have hL := sqrt101_pos
  have hL2 := sqrt101_sq
  have hT : (0 : ℝ) < 2 + 2 / Real.sqrt 101 := by positivity
  have hR := Real.sqrt_pos.mpr hT
  have hR2 : Real.sqrt (2 + 2 / Real.sqrt 101) * Real.sqrt (2 + 2 / Real.sqrt 101) =
      2 + 2 / Real.sqrt 101 := Real.mul_self_sqrt (le_of_lt hT)
  unfold quatRotate vcross vadd vsmul negUnitZ
  set t := Real.sqrt 101 with htdef
  set u := Real.sqrt (2 + 2 / t) with hudef
  have ht0 : t ≠ 0 := ne_of_gt hL
  have hu0 : u ≠ 0 := ne_of_gt hR
  have hu2 : t * (u * u) = 2 * t + 2 := by
    rw [hR2]
    field_simp
  ext <;> dsimp
  all_goals field_simp [ht0, hu0]
  · ring
  · linear_combination (t - t ^ 2) * hu2 + (-2 * t) * hL2

/-! Claim theorems. -/

/-- Claim C1: `setPropertiesFromCamera` removes the fixed robot-to-camera
basis rotation by right-multiplying by its inverse, extracts yaw from the
de-based quaternion's native roll angle and pitch from its native yaw
angle, applies the branch correction (fold pitch by +-pi around the
+-pi/2 thresholds, negate yaw, add or subtract pi to yaw by the sign of
the lateral projection) exactly when the forward direction's projection
onto the world-forward axis is negative, and finally writes the pitch,
the into-[0, 2*pi)-wrapped yaw and the raw camera position into the
properties. -/
theorem setPropertiesFromCamera_matches_spec (s : ControllerState)
    (camO : Quat) (camP : Vec3) :
    setPropertiesFromCamera s camO camP = setPropertiesFromCameraSpec s camO camP := by
  simp only [setPropertiesFromCamera, setPropertiesFromCameraSpec, worldForwardAxis,
    worldLateralAxis, negUnitZ, unitX]
  split_ifs <;> rfl

/-- Claim C5: the pitch property can never be set or incremented outside
[-pi/2 + 0.001, pi/2 - 0.001]: every write through the property layer
saturates at the bound; in particular incrementing by 10 from pitch 1.5
yields exactly pi/2 - 0.001. -/
theorem pitch_clamped :
    (∀ v : ℝ, PITCH_LIMIT_LOW ≤ (setPitchFloat v).val ∧
      (setPitchFloat v).val ≤ PITCH_LIMIT_HIGH) ∧
    (∀ (s : ControllerState) (a : ℝ),
      PITCH_LIMIT_LOW ≤ (pitch s a).pitch_prop.val ∧
      (pitch s a).pitch_prop.val ≤ PITCH_LIMIT_HIGH) ∧
    (pitch pitchOnePointFiveState 10).pitch_prop.val = Real.pi / 2 - 0.001 := by
  refine ⟨fun v => (setPitchFloat v).property, fun s a => (pitch s a).pitch_prop.property, ?_⟩
  have hpi : Real.pi < 3.141593 := Real.pi_lt_d6
  show (setPitchFloat ((1.5 : ℝ) + 10)).val = Real.pi / 2 - 0.001
  show clampPitch ((1.5 : ℝ) + 10) = Real.pi / 2 - 0.001
  unfold clampPitch PITCH_LIMIT_HIGH
  rw [if_pos (by linarith)]

/-- Claim C6: `handleMouseEvent` performs exactly one of four disjoint
actions, classified with the precedence primary-without-shift (rotate),
then secondary or primary-with-shift (pan), then tertiary (local-Z move),
then cursor-hint-only, and independently of the fired action a nonzero
wheel delta additionally applies `move(0, 0, -wheel*0.01)` in the same
event. -/
theorem handleMouseEvent_dispatch (s : ControllerState) (e : ViewportMouseEvent) :
    handleMouseEvent s e = handleMouseEventSpec s e := by
  rcases e with ⟨mm, ex, ey, lx, ly, l, m, r, sh, wd⟩
  cases l <;> cases m <;> cases r <;> cases sh <;> rfl

/-- Claim C8: on an `update` tick whose transform lookup failed, the
roll, yaw and pitch properties are unchanged, the previously stored
reference pose is untouched and its orientation is reapplied to the
tracked scene node, and the camera is still recomputed from the current
properties (constant orientation, position from the position property);
the failure is not surfaced: `update` is total and returns an ordinary
state. -/
theorem update_missing_transform (s : ControllerState) (dt ros_dt : ℝ) :
    (update s dt ros_dt none).roll_prop = s.roll_prop ∧
    (update s dt ros_dt none).yaw_prop = s.yaw_prop ∧
    (update s dt ros_dt none).pitch_prop = s.pitch_prop ∧
    (update s dt ros_dt none).node_orientation = s.reference_orientation ∧
    (update s dt ros_dt none).reference_orientation = s.reference_orientation ∧
    (update s dt ros_dt none).reference_position = s.reference_position ∧
    (update s dt ros_dt none).node_position = s.node_position ∧
    (update s dt ros_dt none).cam_orientation = getOrientation s ∧
    (update s dt ros_dt none).cam_position = s.position_prop := by
  refine ⟨rfl, rfl, rfl, rfl, rfl, rfl, rfl, rfl, rfl⟩

/-- Claim C2, counterexample: the constant returned by `getOrientation`
is not the exact +-90-degree composition (in either operand order),
because the code uses the literal angle 1.57 rad rather than pi/2: the w
components differ (cos(0.785)^2 > 1/2 = cos(pi/4)^2). -/
theorem getOrientation_ne_exact_ninety :
    getOrientation initialState ≠ exactNinetyXY ∧
    getOrientation initialState ≠ exactNinetyYX := by
  constructor
  · intro h
    have hw := congrArg Quat.w h
    rw [getOrientation_eval, exactNinetyXY_w] at hw
    dsimp at hw
    have := cos_785_sq_gt_half
    linarith
  · intro h
    have hw := congrArg Quat.w h
    rw [getOrientation_eval, exactNinetyYX_w] at hw
    dsimp at hw
    have := cos_785_sq_gt_half
    linarith

/-- Claim C2, amended: `getOrientation` returns one and the same constant
quaternion for all property states — the live yaw/pitch/roll properties
have no influence — and that constant is the composition of a rotation by
the literal angle 1.57 rad (approximately 90 degrees, but not exactly
pi/2) about the lateral axis `UNIT_X` with a rotation by -1.57 rad about
the up axis `UNIT_Y`. -/
theorem getOrientation_constant :
    (∀ s t : ControllerState, getOrientation s = getOrientation t) ∧
    getOrientation initialState =
      quatMul (fromAngleAxis 1.57 unitX) (fromAngleAxis (-1.57) unitY) := by
  refine ⟨fun s t => rfl, ?_⟩
  exact quatMul_identity _

/-- Claim C4, counterexample: the per-frame transform ingestion in
`update` writes the transform's native yaw decomposition to the yaw
property without wrapping; for the reference orientation
(0.8, 0, -0.6, 0) the stored yaw is arcsin(-0.96) < 0, outside
[0, 2*pi). -/
theorem update_ingestion_yaw_unwrapped :
    (update initialState 0 0 (some (⟨0, 0, 0⟩, negativeYawOrientation))).yaw_prop < 0 := by
  show Real.arcsin (-2 * ((0 : ℝ) * 0 - 0.8 * (-0.6))) < 0
  have h : (-2 : ℝ) * ((0 : ℝ) * 0 - 0.8 * (-0.6)) = -(0.96) := by norm_num
  rw [h, Real.arcsin_neg]
  have hpos := Real.arcsin_pos.mpr (show (0 : ℝ) < 0.96 by norm_num)
  linarith

/-- Claim C4, amended: the yaw property is wrapped into [0, 2*pi) after
construction, after every `yaw(delta)` increment (which stores exactly
the wrap of yaw+delta; e.g. from yaw 6.0, `yaw(1.0)` stores
7 - 2*pi, within 0.001 of 0.7168 rad) and after reverse extraction via
`setPropertiesFromCamera`; the per-frame transform ingestion in `update`,
however, stores the transform's native yaw unwrapped (see the
counterexample). -/
theorem yaw_wrapping :
    (∀ a : ℝ, 0 ≤ mapAngleTo0_2Pi a ∧ mapAngleTo0_2Pi a < 2 * Real.pi) ∧
    (∀ (s : ControllerState) (a : ℝ),
      (yaw s a).yaw_prop = mapAngleTo0_2Pi (s.yaw_prop + a)) ∧
    (∀ (s : ControllerState) (camO : Quat) (camP : Vec3),
      0 ≤ (setPropertiesFromCamera s camO camP).yaw_prop ∧
      (setPropertiesFromCamera s camO camP).yaw_prop < 2 * Real.pi) ∧
    (0 ≤ initialState.yaw_prop ∧ initialState.yaw_prop < 2 * Real.pi) ∧
    ((yaw yawSixState 1).yaw_prop = 7 - 2 * Real.pi ∧
      |7 - 2 * Real.pi - 0.7168| < (0.001 : ℝ)) := by
  have hpi1 : (3.141592 : ℝ) < Real.pi := Real.pi_gt_d6
  have hpi2 : Real.pi < 3.141593 := Real.pi_lt_d6
  refine ⟨mapAngleTo0_2Pi_mem, fun s a => rfl,
    fun s camO camP => mapAngleTo0_2Pi_mem _,
    ⟨le_refl 0, Real.two_pi_pos⟩, ?_, ?_⟩
  · show mapAngleTo0_2Pi (6 + 1) = 7 - 2 * Real.pi
    have hfl : Int.floor ((6 + 1 : ℝ) / (2 * Real.pi)) = 1 := by
      rw [Int.floor_eq_iff]
      constructor
      · rw [Int.cast_one, le_div_iff₀ Real.two_pi_pos]
        linarith
      · rw [Int.cast_one, div_lt_iff₀ Real.two_pi_pos]
        linarith
    unfold mapAngleTo0_2Pi
    rw [hfl]
    norm_num
  · rw [abs_lt]
    constructor <;> linarith

/-- Claim C7, counterexample: a pointer-move event whose coordinates did
not change, with the middle button held and zero wheel delta, has a
button-driven action that reduces to `move(0, 0, 0)` and indeed leaves
the position property unchanged — yet the render request is not
suppressed, because every pointer-move requests a render. -/
theorem zero_delta_move_still_renders :
    (handleMouseEvent initialState zeroDeltaMoveEvent).2 = true ∧
    (handleMouseEvent initialState zeroDeltaMoveEvent).1.position_prop =
      initialState.position_prop := by
  constructor
  · rfl
  · simp [handleMouseEvent, zeroDeltaMoveEvent, move, quatRotate_zeroVec, vadd_zeroVec]

/-- Claim C7, amended: `handleMouseEvent` requests a render exactly when
the event is a pointer-move or carries a nonzero wheel delta (hence only
if it was a pointer-move, a button action or a wheel action); a call that
is not a pointer-move and has zero wheel delta — whose button-driven
action therefore reduces to `move(0, 0, 0)` — leaves the position
property unchanged and suppresses the render request.  (A zero-delta
pointer-move still requests a render; see the counterexample.) -/
theorem render_request_policy (s : ControllerState) (e : ViewportMouseEvent) :
    ((handleMouseEvent s e).2 = true ↔ (e.isMouseMove = true ∨ e.wheel_delta ≠ 0)) ∧
    (e.isMouseMove = false → e.wheel_delta = 0 →
      (handleMouseEvent s e).1.position_prop = s.position_prop ∧
      (handleMouseEvent s e).2 = false) := by
  obtain ⟨mm, ex, ey, lx, ly, l, m, r, sh, wd⟩ := e
  constructor
  · cases mm <;> by_cases hw : wd = 0 <;> simp [handleMouseEvent, hw]
  · intro hm hw
    dsimp only at hm hw
    subst hm
    subst hw
    constructor
    · cases l <;> cases m <;> cases r <;> cases sh <;>
        simp [handleMouseEvent, move, yaw, pitch, quatRotate_zeroVec, vadd_zeroVec]
    · simp [handleMouseEvent]

/-- Claim C7 witness: at a concrete non-pointer-move event with zero
wheel delta, the position property is unchanged and no render is
requested. -/
theorem render_request_policy_witness :
    (handleMouseEvent initialState leftPressEvent).1.position_prop =
      initialState.position_prop ∧
    (handleMouseEvent initialState leftPressEvent).2 = false :=
  (render_request_policy initialState leftPressEvent).2 rfl rfl

/-- Claim C10: a mouse event that is not a pointer-move and has zero
wheel delta requests no render and leaves the position, pitch and roll
properties and the camera, reference and scene-node poses unchanged (all
motion deltas are zero for non-move events); the yaw property is likewise
unchanged provided it already lies in [0, 2*pi) (the primary-button
branch re-wraps yaw even for a zero delta); only the status text and the
cursor shape are updated. -/
theorem non_move_event_frame_effect (s : ControllerState) (e : ViewportMouseEvent)
    (hm : e.isMouseMove = false) (hw : e.wheel_delta = 0) :
    (handleMouseEvent s e).2 = false ∧
    (handleMouseEvent s e).1.position_prop = s.position_prop ∧
    (handleMouseEvent s e).1.pitch_prop = s.pitch_prop ∧
    (handleMouseEvent s e).1.roll_prop = s.roll_prop ∧
    (0 ≤ s.yaw_prop → s.yaw_prop < 2 * Real.pi →
      (handleMouseEvent s e).1.yaw_prop = s.yaw_prop) ∧
    (handleMouseEvent s e).1.cam_orientation = s.cam_orientation ∧
    (handleMouseEvent s e).1.cam_position = s.cam_position ∧
    (handleMouseEvent s e).1.reference_position = s.reference_position ∧
    (handleMouseEvent s e).1.reference_orientation = s.reference_orientation ∧
    (handleMouseEvent s e).1.node_position = s.node_position ∧
    (handleMouseEvent s e).1.node_orientation = s.node_orientation := by
  obtain ⟨mm, ex, ey, lx, ly, l, m, r, sh, wd⟩ := e
  dsimp only at hm hw
  subst hm
  subst hw
  have hyaw : 0 ≤ s.yaw_prop → s.yaw_prop < 2 * Real.pi →
      (handleMouseEvent s ⟨false, ex, ey, lx, ly, l, m, r, sh, 0⟩).1.yaw_prop =
        s.yaw_prop := by
    intro h1 h2
    cases l <;> cases m <;> cases r <;> cases sh <;>
      simp [handleMouseEvent, move, yaw, pitch, quatRotate_zeroVec, vadd_zeroVec,
        setPitchFloat_val, mapAngleTo0_2Pi_eq_self h1 h2]
  refine ⟨?_, ?_, ?_, ?_, hyaw, ?_, ?_, ?_, ?_, ?_, ?_⟩ <;>
    cases l <;> cases m <;> cases r <;> cases sh <;>
      simp [handleMouseEvent, move, yaw, pitch, quatRotate_zeroVec, vadd_zeroVec,
        setPitchFloat_val]

/-- Claim C10 witness: the non-pointer-move left-press event with zero
wheel delta, applied to the freshly constructed state (whose yaw 0 lies
in [0, 2*pi)), changes none of the pose-relevant fields and requests no
render. -/
theorem non_move_event_frame_effect_witness :
    (handleMouseEvent initialState leftPressEvent).2 = false ∧
    (handleMouseEvent initialState leftPressEvent).1.position_prop =
      initialState.position_prop ∧
    (handleMouseEvent initialState leftPressEvent).1.pitch_prop =
      initialState.pitch_prop ∧
    (handleMouseEvent initialState leftPressEvent).1.roll_prop =
      initialState.roll_prop ∧
    (handleMouseEvent initialState leftPressEvent).1.yaw_prop =
      initialState.yaw_prop ∧
    (handleMouseEvent initialState leftPressEvent).1.cam_orientation =
      initialState.cam_orientation ∧
    (handleMouseEvent initialState leftPressEvent).1.node_orientation =
      initialState.node_orientation := by
  have h := non_move_event_frame_effect initialState leftPressEvent rfl rfl
  exact ⟨h.1, h.2.1, h.2.2.1, h.2.2.2.1,
    h.2.2.2.2.1 (le_refl 0) Real.two_pi_pos,
    h.2.2.2.2.2.1, h.2.2.2.2.2.2.2.2.2.2⟩

/-- Claim C3: evidence of the code bug.  After `reset()` the camera
orientation (the look-at result: a pure rotation about the up axis, with
zero x component) differs from the forward transform of the just-written
properties (`getOrientation`, whose x component is
sin(0.785)*cos(0.785) > 0) — no floating-point tolerance can reconcile
them; the invariant does hold on the `update` path, whose last step
copies the forward transform into the camera. -/
theorem forward_consistency_broken_after_reset :
    (reset initialState).cam_orientation ≠ getOrientation (reset initialState) ∧
    (∀ (s : ControllerState) (dt ros_dt : ℝ) (tf : Option (Vec3 × Quat)),
      (update s dt ros_dt tf).cam_orientation = getOrientation (update s dt ros_dt tf) ∧
      (update s dt ros_dt tf).cam_position = (update s dt ros_dt tf).position_prop) := by
  constructor
  · intro h
    have hx := congrArg Quat.x h
    rw [reset_cam_orientation, getOrientation_eval] at hx
    dsimp at hx
    have hpi : (3.141592 : ℝ) < Real.pi := Real.pi_gt_d6
    have hsin : 0 < Real.sin 0.785 :=
      Real.sin_pos_of_pos_of_lt_pi (by norm_num) (by linarith)
    have hcos : 0 < Real.cos 0.785 :=
      Real.cos_pos_of_mem_Ioo (Set.mem_Ioo.mpr ⟨by linarith, by linarith⟩)
    have hpos := mul_pos hsin hcos
    linarith [hx, hpos]
  · intro s dt rdt tf
    rcases tf with _ | ⟨p, q⟩ <;> exact ⟨rfl, rfl⟩

/-- Claim C9: `reset()` (embedded as the documented double pass: place,
look at the origin, extract, forward-update, re-look, re-extract) always
leaves the camera at position (-10, 0, 1) looking at the world origin
(the view direction is the unit vector from the camera towards the
origin, and following it for distance sqrt(101) lands exactly on the
origin), and the resulting pose is stable under a further reverse
extraction without a second `reset` call. -/
theorem reset_pose (s : ControllerState) :
    (reset s).cam_position = ⟨-10, 0, 1⟩ ∧
    quatRotate (reset s).cam_orientation negUnitZ =
      ⟨10 / Real.sqrt 101, 0, -(1 / Real.sqrt 101)⟩ ∧
    vadd (reset s).cam_position
      (vsmul (Real.sqrt 101) (quatRotate (reset s).cam_orientation negUnitZ)) =
      ⟨0, 0, 0⟩ ∧
    setPropertiesFromCameraSelf (reset s) = reset s := by
  have ht0 : Real.sqrt 101 ≠ 0 := ne_of_gt sqrt101_pos
  have hrot : quatRotate (reset s).cam_orientation negUnitZ =
      ⟨10 / Real.sqrt 101, 0, -(1 / Real.sqrt 101)⟩ := by
    rw [reset_cam_orientation]
    exact quatRotate_reset_dir
  refine ⟨rfl, hrot, ?_, rfl⟩
  rw [reset_cam_position, hrot]
  unfold vadd vsmul
  ext <;> dsimp
  all_goals field_simp

end FPSRoll

end
